import Mathlib

/-!
Verification of runfile_generation/runfilegeneration.py.

The development embeds the observable behaviour of the pipeline classes
(Magnetism, CalculationType, WriteVaspFiles) as executable Lean functions
and proves the specified properties about them.

Modelling conventions:
* Magnetic moment scalars are modelled as integers.  The program only ever
  multiplies moments by random signs drawn from the pair -1, 1 and compares
  moment vectors for exact elementwise equality, so the structural claims
  are insensitive to the scalar carrier.
* The process-wide random source used by random.choices is modelled as an
  explicit stream of sign vectors, one vector per sampling attempt.  All
  theorems quantify over every stream, which in particular covers every
  stream producible by random.choices with population -1, 1.
* sys.exit(1) together with the diagnostic printed just before it is
  modelled by an Except value carrying the exit code and the message.
* Messages printed without exiting are collected in an output field.
-/

namespace Runfile

/-! ## Magnetism.random_antiferromagnetic (runfilegeneration.py lines 123-145)

The Python function is recursive; a rejected attempt recurses with
num_tries - 1 and an accepted attempt recurses with num_afm - 1, so each
recursive call decreases num_afm + num_tries by exactly one.  The Lean
embedding therefore threads a fuel argument that the wrapper below fixes
to num_afm + num_tries; the lemma random_antiferromagnetic_eq proves that
the wrapper satisfies the recurrence of the source verbatim.

The function is instrumented: beside the accepted enumerations it also
returns the number of rejected attempts and the recursion depth, which the
resource claims of the specification are about. -/

def random_antiferromagnetic_run (signs : Nat → List Int) (ferro_magmom : List Int) :
    Nat → Nat → List (List Int) → Nat → Nat → List (List Int) × Nat × Nat
  | _fuel, _k, used_enumerations, 0, _t => (used_enumerations, 0, 0)
  | _fuel, _k, used_enumerations, _a+1, 0 => (used_enumerations, 0, 0)
  | 0, _k, used_enumerations, _a+1, _t+1 => (used_enumerations, 0, 0)
  | fuel+1, k, used_enumerations, num_afm+1, num_tries+1 =>
      let antiferro_mag_scheme := signs k
      let antiferro_mag := List.zipWith (· * ·) antiferro_mag_scheme ferro_magmom
      if antiferro_mag = ferro_magmom ∨ antiferro_mag ∈ used_enumerations then
        let r := random_antiferromagnetic_run signs ferro_magmom fuel (k+1)
          used_enumerations (num_afm+1) num_tries
        (r.1, r.2.1 + 1, r.2.2 + 1)
      else
        let r := random_antiferromagnetic_run signs ferro_magmom fuel (k+1)
          (used_enumerations ++ [antiferro_mag]) num_afm (num_tries+1)
        (r.1, r.2.1, r.2.2 + 1)

/-- Magnetism.random_antiferromagnetic: the list of accepted enumerations. -/
def random_antiferromagnetic (signs : Nat → List Int) (k : Nat) (ferro_magmom : List Int)
    (used_enumerations : List (List Int)) (num_afm num_tries : Nat) : List (List Int) :=
  (random_antiferromagnetic_run signs ferro_magmom (num_afm + num_tries) k
    used_enumerations num_afm num_tries).1

/-- Number of rejected attempts performed by random_antiferromagnetic,
that is, the number of recursive calls taken with num_tries decremented. -/
def random_antiferromagnetic_rejections (signs : Nat → List Int) (k : Nat)
    (ferro_magmom : List Int) (used_enumerations : List (List Int))
    (num_afm num_tries : Nat) : Nat :=
  (random_antiferromagnetic_run signs ferro_magmom (num_afm + num_tries) k
    used_enumerations num_afm num_tries).2.1

/-- Recursion depth of random_antiferromagnetic: the number of nested
recursive invocations performed below the initial call. -/
def random_antiferromagnetic_depth (signs : Nat → List Int) (k : Nat)
    (ferro_magmom : List Int) (used_enumerations : List (List Int))
    (num_afm num_tries : Nat) : Nat :=
  (random_antiferromagnetic_run signs ferro_magmom (num_afm + num_tries) k
    used_enumerations num_afm num_tries).2.2

/-- The fuel-threaded embedding satisfies the recurrence of the Python
source: return used_enumerations when num_afm or num_tries is zero,
otherwise draw a candidate, retry with one fewer try if it equals the
ferromagnetic vector or an already used enumeration, and otherwise append
it and continue with one fewer enumeration still wanted. -/
theorem random_antiferromagnetic_eq (signs : Nat → List Int) (k : Nat)
    (ferro_magmom : List Int) (used_enumerations : List (List Int))
    (num_afm num_tries : Nat) :
    random_antiferromagnetic signs k ferro_magmom used_enumerations num_afm num_tries =
      if num_afm = 0 ∨ num_tries = 0 then used_enumerations
      else
        let antiferro_mag := List.zipWith (· * ·) (signs k) ferro_magmom
        if antiferro_mag = ferro_magmom ∨ antiferro_mag ∈ used_enumerations then
          random_antiferromagnetic signs (k+1) ferro_magmom used_enumerations
            num_afm (num_tries - 1)
        else
          random_antiferromagnetic signs (k+1) ferro_magmom
            (used_enumerations ++ [antiferro_mag]) (num_afm - 1) num_tries := by
  match num_afm, num_tries with
  | 0, t => simp [random_antiferromagnetic, random_antiferromagnetic_run]
  | a+1, 0 => simp [random_antiferromagnetic, random_antiferromagnetic_run]
  | a+1, t+1 =>
    simp only [random_antiferromagnetic, Nat.add_eq, Nat.succ_ne_zero, or_self,
      if_false, Nat.add_sub_cancel]
    have hfuel : (a + 1) + (t + 1) = ((a + 1) + t) + 1 := by omega
    rw [hfuel]
    simp only [random_antiferromagnetic_run]
    split
    · rfl
    · have : (a + 1) + t = a + (t + 1) := by omega
      rw [this]

theorem random_antiferromagnetic_run_append (signs : Nat → List Int) (ferro : List Int) :
    ∀ fuel k used a t, ∃ new,
      (random_antiferromagnetic_run signs ferro fuel k used a t).1 = used ++ new ∧
      new.length ≤ a := by
  intro fuel
  induction fuel with
  | zero =>
    intro k used a t
    match a, t with
    | 0, t => exact ⟨[], by simp [random_antiferromagnetic_run]⟩
    | a+1, 0 => exact ⟨[], by simp [random_antiferromagnetic_run]⟩
    | a+1, t+1 => exact ⟨[], by simp [random_antiferromagnetic_run]⟩
  | succ fuel ih =>
    intro k used a t
    match a, t with
    | 0, t => exact ⟨[], by simp [random_antiferromagnetic_run]⟩
    | a+1, 0 => exact ⟨[], by simp [random_antiferromagnetic_run]⟩
    | a+1, t+1 =>
      simp only [random_antiferromagnetic_run]
      split
      · exact ih (k+1) used (a+1) t
      · obtain ⟨new, h1, h2⟩ :=
          ih (k+1) (used ++ [List.zipWith (· * ·) (signs k) ferro]) a (t+1)
        refine ⟨List.zipWith (· * ·) (signs k) ferro :: new, ?_, ?_⟩
        · simpa [List.append_assoc] using h1
        · simpa using Nat.succ_le_succ h2

theorem random_antiferromagnetic_run_invariant (signs : Nat → List Int) (ferro : List Int) :
    ∀ fuel k used a t, (∀ e ∈ used, e ≠ ferro) → used.Pairwise (· ≠ ·) →
      (∀ e ∈ (random_antiferromagnetic_run signs ferro fuel k used a t).1, e ≠ ferro) ∧
      ((random_antiferromagnetic_run signs ferro fuel k used a t).1).Pairwise (· ≠ ·) := by
  intro fuel
  induction fuel with
  | zero =>
    intro k used a t h1 h2
    match a, t with
    | 0, t => exact ⟨h1, h2⟩
    | a+1, 0 => exact ⟨h1, h2⟩
    | a+1, t+1 => exact ⟨h1, h2⟩
  | succ fuel ih =>
    intro k used a t h1 h2
    match a, t with
    | 0, t => exact ⟨h1, h2⟩
    | a+1, 0 => exact ⟨h1, h2⟩
    | a+1, t+1 =>
      simp only [random_antiferromagnetic_run]
      split
      · exact ih (k+1) used (a+1) t h1 h2
      · rename_i hnot
        push_neg at hnot
        obtain ⟨hferro, hmem⟩ := hnot
        refine ih (k+1) (used ++ [List.zipWith (· * ·) (signs k) ferro]) a (t+1) ?_ ?_
        · intro e he
          rcases List.mem_append.mp he with h | h
          · exact h1 e h
          · simp only [List.mem_singleton] at h
            exact h ▸ hferro
        · refine List.pairwise_append.mpr ⟨h2, List.pairwise_singleton _ _, ?_⟩
          intro x hx y hy
          simp only [List.mem_singleton] at hy
          subst hy
          intro hxy
          exact hmem (hxy ▸ hx)

theorem random_antiferromagnetic_run_rejections_le (signs : Nat → List Int)
    (ferro : List Int) :
    ∀ fuel k used a t,
      (random_antiferromagnetic_run signs ferro fuel k used a t).2.1 ≤ t := by
  intro fuel
  induction fuel with
  | zero =>
    intro k used a t
    match a, t with
    | 0, t => simp [random_antiferromagnetic_run]
    | a+1, 0 => simp [random_antiferromagnetic_run]
    | a+1, t+1 => simp [random_antiferromagnetic_run]
  | succ fuel ih =>
    intro k used a t
    match a, t with
    | 0, t => simp [random_antiferromagnetic_run]
    | a+1, 0 => simp [random_antiferromagnetic_run]
    | a+1, t+1 =>
      simp only [random_antiferromagnetic_run]
      split
      · dsimp only
        exact Nat.succ_le_succ (ih (k+1) used (a+1) t)
      · dsimp only
        exact ih (k+1) _ a (t+1)

theorem random_antiferromagnetic_run_depth_le (signs : Nat → List Int)
    (ferro : List Int) :
    ∀ fuel k used a t,
      (random_antiferromagnetic_run signs ferro fuel k used a t).2.2 ≤ a + t := by
  intro fuel
  induction fuel with
  | zero =>
    intro k used a t
    match a, t with
    | 0, t => simp [random_antiferromagnetic_run]
    | a+1, 0 => simp [random_antiferromagnetic_run]
    | a+1, t+1 => simp [random_antiferromagnetic_run]
  | succ fuel ih =>
    intro k used a t
    match a, t with
    | 0, t => simp [random_antiferromagnetic_run]
    | a+1, 0 => simp [random_antiferromagnetic_run]
    | a+1, t+1 =>
      simp only [random_antiferromagnetic_run]
      split
      · dsimp only
        have := ih (k+1) used (a+1) t
        omega
      · dsimp only
        have := ih (k+1) (used ++ [List.zipWith (· * ·) (signs k) ferro]) a (t+1)
        omega

theorem random_antiferromagnetic_run_shortage (signs : Nat → List Int)
    (ferro : List Int) :
    ∀ fuel k used a t, a + t ≤ fuel →
      (random_antiferromagnetic_run signs ferro fuel k used a t).1.length =
        used.length + a ∨
      (random_antiferromagnetic_run signs ferro fuel k used a t).2.1 = t := by
  intro fuel
  induction fuel with
  | zero =>
    intro k used a t hf
    match a, t with
    | 0, t => left; simp [random_antiferromagnetic_run]
    | a+1, 0 => right; simp [random_antiferromagnetic_run]
    | a+1, t+1 => omega
  | succ fuel ih =>
    intro k used a t hf
    match a, t with
    | 0, t => left; simp [random_antiferromagnetic_run]
    | a+1, 0 => right; simp [random_antiferromagnetic_run]
    | a+1, t+1 =>
      simp only [random_antiferromagnetic_run]
      split
      · dsimp only
        rcases ih (k+1) used (a+1) t (by omega) with h | h
        · left; exact h
        · right; omega
      · dsimp only
        rcases ih (k+1) (used ++ [List.zipWith (· * ·) (signs k) ferro]) a (t+1)
            (by omega) with h | h
        · left
          simp only [List.length_append, List.length_singleton] at h
          omega
        · right; exact h

/-! ## Claims about the enumerator alone (C1, C2, C3, C10) -/

/-- Claim C1: every result set returned by random_antiferromagnetic (called,
as in the program, with an empty used_enumerations list) contains only
enumerations that differ elementwise from the ferromagnetic reference
vector, and no two accepted enumerations in the result set are
elementwise-equal to each other. -/
theorem claim_C1_enumerations_distinct_and_not_ferro (signs : Nat → List Int)
    (k : Nat) (ferro_magmom : List Int) (num_afm num_tries : Nat) :
    (∀ e ∈ random_antiferromagnetic signs k ferro_magmom [] num_afm num_tries,
      e ≠ ferro_magmom) ∧
    (random_antiferromagnetic signs k ferro_magmom [] num_afm num_tries).Pairwise
      (· ≠ ·) := by
  unfold random_antiferromagnetic
  exact random_antiferromagnetic_run_invariant signs ferro_magmom _ k [] num_afm
    num_tries (by simp) (by simp)

/-- Claim C2: the enumerator returns at most num_afm elements, performs at
most num_tries rejected attempts, and when the attempt budget is exhausted
it returns whatever was accepted so far (the used_enumerations list) as a
normal result rather than failing. -/
theorem claim_C2_partial_result_bounds (signs : Nat → List Int) (k : Nat)
    (ferro_magmom : List Int) (used_enumerations : List (List Int))
    (num_afm num_tries : Nat) :
    (random_antiferromagnetic signs k ferro_magmom [] num_afm num_tries).length ≤
      num_afm ∧
    random_antiferromagnetic_rejections signs k ferro_magmom used_enumerations
      num_afm num_tries ≤ num_tries ∧
    random_antiferromagnetic signs k ferro_magmom used_enumerations num_afm 0 =
      used_enumerations := by
  refine ⟨?_, ?_, ?_⟩
  · obtain ⟨new, h1, h2⟩ := random_antiferromagnetic_run_append signs ferro_magmom
      (num_afm + num_tries) k [] num_afm num_tries
    unfold random_antiferromagnetic
    rw [h1]
    simpa using h2
  · exact random_antiferromagnetic_run_rejections_le signs ferro_magmom _ k
      used_enumerations num_afm num_tries
  · unfold random_antiferromagnetic
    match num_afm with
    | 0 => rfl
    | a+1 => rfl

/-- Claim C3, amended: the recursion depth of random_antiferromagnetic is
bounded by num_afm + num_tries (the sum of the target count and the attempt
budget), not by their minimum: rejected attempts and accepted enumerations
each contribute one level of recursion. -/
theorem claim_C3_depth_bounded_by_sum (signs : Nat → List Int) (k : Nat)
    (ferro_magmom : List Int) (used_enumerations : List (List Int))
    (num_afm num_tries : Nat) :
    random_antiferromagnetic_depth signs k ferro_magmom used_enumerations
      num_afm num_tries ≤ num_afm + num_tries :=
  random_antiferromagnetic_run_depth_le signs ferro_magmom _ k used_enumerations
    num_afm num_tries

/-- Claim C3 counterexample: with reference vector consisting of the single
moment 1, target count 1 and attempt budget 2, a sign stream that first
draws the sign 1 (candidate equal to the reference, rejected) and then the
sign -1 (accepted) forces recursion depth 2, which exceeds
min num_afm num_tries = 1.  Both drawn sign vectors are producible by
random.choices over the population -1, 1. -/
theorem claim_C3_depth_min_counterexample :
    ¬ (random_antiferromagnetic_depth
        (fun n => if n = 0 then [1] else [-1]) 0 [1] [] 1 2 ≤ min 1 2) := by
  decide

/-- Claim C10: random_antiferromagnetic extends the list passed as
used_enumerations: the input list always reappears unchanged as a prefix of
the returned list, and at most num_afm new elements follow it. -/
theorem claim_C10_used_enumerations_prefix_frame (signs : Nat → List Int)
    (k : Nat) (ferro_magmom : List Int) (used_enumerations : List (List Int))
    (num_afm num_tries : Nat) :
    ∃ new,
      random_antiferromagnetic signs k ferro_magmom used_enumerations num_afm
        num_tries = used_enumerations ++ new ∧
      new.length ≤ num_afm :=
  random_antiferromagnetic_run_append signs ferro_magmom _ k used_enumerations
    num_afm num_tries

/-! ## Magnetism.afm_structures and Magnetism.get_magnetic_structures
(runfilegeneration.py lines 147-202)

A pymatgen Structure is reduced to its observable fields: the formula
string and the per-site magmom site property.  The original structures may
lack the magmom site property (reading it raises KeyError in Python), so
the field is an Option; the structures produced by the external analyzer
call CollinearMagneticStructureAnalyzer(...).get_ferromagnetic_structure()
always carry moments (overwrite_magmom_mode is replace_all), so that
external call is modelled by the ferro_magmom field of InputStructure.

afm_structures and get_magnetic_structures write, for one structure key,
entries into self.magnetized_structures_dict (label to structure) and into
self.unique_magnetizations (label to moment vector) and print messages;
MagOutput collects the three.  The antiferromagnetic loop of
afm_structures copies the ferromagnetic structure and overwrites every
site moment with the corresponding entry of the accepted enumeration, so
the copy is the structure whose magmom vector is that enumeration. -/

structure PmgStructure where
  formula : String
  magmom : Option (List Int)
deriving DecidableEq

structure InputStructure where
  formula : String
  site_magmom : Option (List Int)
  ferro_magmom : List Int
deriving DecidableEq

structure MagOutput where
  magnetized : List (String × PmgStructure)
  unique : List (String × List Int)
  prints : List String
deriving DecidableEq

/-- Magnetism.afm_structures for one structure.  The Python test
set(ferro_structure.site_properties, magmom entry) == set([0]) is the
Finset equality below. -/
def afm_structures (signs : Nat → List Int) (k : Nat) (formula : String)
    (ferro_magmom : List Int) (max_antiferro num_tries : Nat) : MagOutput :=
  if ferro_magmom.toFinset = {0} then
    { magnetized := [("FM", ⟨formula, some ferro_magmom⟩)],
      unique := [("FM", ferro_magmom)],
      prints := [formula ++ " is not magnetic; ferromagnetic structure to be run"] }
  else
    let random_enumerations :=
      random_antiferromagnetic signs k ferro_magmom [] max_antiferro num_tries
    { magnetized := random_enumerations.enum.map
        (fun p => ("AFM" ++ toString (p.1 + 1), ⟨formula, some p.2⟩)),
      unique := random_enumerations.enum.map
        (fun p => ("AFM" ++ toString (p.1 + 1), p.2)),
      prints := [] }

/-- The body of the loop in Magnetism.get_magnetic_structures for one
input structure: dispatch on the configured magnetization scheme.  An
unrecognized scheme prints a diagnostic and calls sys.exit(1), modelled as
an error value carrying exit code and message. -/
def get_magnetic_structures_one (signs : Nat → List Int) (scheme : String)
    (max_antiferro num_tries : Nat) (s : InputStructure) :
    Except (Nat × String) MagOutput :=
  if scheme = "preserve" then
    .ok { magnetized := [("preserve", ⟨s.formula, s.site_magmom⟩)],
          unique := [("preserve", s.site_magmom.getD s.ferro_magmom)],
          prints := [] }
  else if scheme = "FM" then
    .ok { magnetized := [("FM", ⟨s.formula, some s.ferro_magmom⟩)],
          unique := [("FM", s.ferro_magmom)],
          prints := [] }
  else if scheme = "AFM" then
    .ok (afm_structures signs 0 s.formula s.ferro_magmom max_antiferro num_tries)
  else if scheme = "FM+AFM" then
    let afm := afm_structures signs 0 s.formula s.ferro_magmom max_antiferro num_tries
    .ok { magnetized := ("FM", ⟨s.formula, some s.ferro_magmom⟩) :: afm.magnetized,
          unique := ("FM", s.ferro_magmom) :: afm.unique,
          prints := afm.prints }
  else
    .error (1, "Magnetization Scheme " ++ scheme ++ " not recognized; fatal error")

/-- Magnetism.get_magnetic_structures: the loop over all structures.  Each
structure is keyed by its formula and the running structure number; the
random stream is indexed per structure since every enumerator call draws
fresh values from the process-wide random source.  sys.exit(1) aborts the
whole loop, so no later structure is processed once an error occurs. -/
def get_magnetic_structures (signs : Nat → Nat → List Int) (scheme : String)
    (max_antiferro num_tries : Nat) :
    List InputStructure → Nat → Except (Nat × String) (List (String × MagOutput))
  | [], _n => .ok []
  | s :: rest, n =>
    match get_magnetic_structures_one (signs n) scheme max_antiferro num_tries s with
    | .error e => .error e
    | .ok out =>
      match get_magnetic_structures signs scheme max_antiferro num_tries rest (n+1) with
      | .error e => .error e
      | .ok outs => .ok ((s.formula ++ " " ++ toString n, out) :: outs)

/-- The membership test used by afm_structures: the moment set equals the
singleton set of zero exactly when the moment list is nonempty and every
moment is zero. -/
theorem toFinset_eq_zero_singleton_iff (l : List Int) :
    l.toFinset = {0} ↔ l ≠ [] ∧ ∀ x ∈ l, x = 0 := by
  constructor
  · intro h
    constructor
    · intro hnil
      subst hnil
      simp at h
      exact (Finset.singleton_ne_empty 0 h.symm).elim
    · intro x hx
      have : x ∈ l.toFinset := List.mem_toFinset.mpr hx
      rw [h] at this
      exact Finset.mem_singleton.mp this
  · rintro ⟨hne, hall⟩
    ext x
    simp only [List.mem_toFinset, Finset.mem_singleton]
    constructor
    · exact hall x
    · intro hx
      subst hx
      match l, hne with
      | y :: ys, _ =>
        have : y = 0 := hall y (by simp)
        exact this ▸ List.mem_cons_self y ys

/-! ## Claims about the Magnetic Ordering Generator (C4, C6, C8) -/

/-- Claim C4: for a structure whose ferromagnetic moment vector is all-zero
(and nonempty), scheme AFM skips the enumerator and emits exactly one
ferromagnetic-labeled variant, zero antiferromagnetic-labeled variants, and
the printed notice that the structure is not magnetic. -/
theorem claim_C4_all_zero_emits_fm_only (signs : Nat → List Int)
    (max_antiferro num_tries : Nat) (s : InputStructure)
    (h1 : s.ferro_magmom ≠ []) (h2 : ∀ x ∈ s.ferro_magmom, x = 0) :
    get_magnetic_structures_one signs "AFM" max_antiferro num_tries s =
      .ok { magnetized := [("FM", ⟨s.formula, some s.ferro_magmom⟩)],
            unique := [("FM", s.ferro_magmom)],
            prints := [s.formula ++
              " is not magnetic; ferromagnetic structure to be run"] } := by
  have hz : s.ferro_magmom.toFinset = {0} :=
    (toFinset_eq_zero_singleton_iff s.ferro_magmom).mpr ⟨h1, h2⟩
  simp [get_magnetic_structures_one, afm_structures, hz]

/-- Claim C4 witness at a concrete all-zero two-site structure. -/
theorem claim_C4_all_zero_emits_fm_only_witness :
    (([0, 0] : List Int) ≠ [] ∧ ∀ x ∈ ([0, 0] : List Int), x = 0) ∧
    get_magnetic_structures_one (fun _ => []) "AFM" 3 100
        ⟨"Na Cl", none, [0, 0]⟩ =
      .ok { magnetized := [("FM", ⟨"Na Cl", some [0, 0]⟩)],
            unique := [("FM", [0, 0])],
            prints := ["Na Cl is not magnetic; ferromagnetic structure to be run"] } :=
  ⟨⟨by decide, by decide⟩,
    claim_C4_all_zero_emits_fm_only (fun _ => []) 3 100 ⟨"Na Cl", none, [0, 0]⟩
      (by decide) (by decide)⟩

/-- Claim C8: under scheme preserve the emitted variant is the original
structure with its moments unchanged, and the recorded magnetization of the
variant is the original moment vector when the structure carries one and
the ferromagnetic assignment when it carries none. -/
theorem claim_C8_preserve_keeps_original_moments (signs : Nat → List Int)
    (max_antiferro num_tries : Nat) (s : InputStructure) :
    ∃ out, get_magnetic_structures_one signs "preserve" max_antiferro num_tries s =
        .ok out ∧
      out.magnetized = [("preserve", ⟨s.formula, s.site_magmom⟩)] ∧
      (∀ m, s.site_magmom = some m → out.unique = [("preserve", m)]) ∧
      (s.site_magmom = none → out.unique = [("preserve", s.ferro_magmom)]) := by
  refine ⟨_, rfl, rfl, ?_, ?_⟩
  · intro m hm
    simp [hm]
  · intro hm
    simp [hm]

/-- Claim C8 witness: the theorem instantiated at a structure carrying no
moments, with the conclusions evaluated. -/
theorem claim_C8_preserve_keeps_original_moments_witness :
    ∃ out, get_magnetic_structures_one (fun _ => []) "preserve" 3 100
        ⟨"Fe2 O3", none, [5, 5, 0, 0, 0]⟩ = .ok out ∧
      out.magnetized = [("preserve", ⟨"Fe2 O3", none⟩)] ∧
      (∀ m, (none : Option (List Int)) = some m → out.unique = [("preserve", m)]) ∧
      ((none : Option (List Int)) = none →
        out.unique = [("preserve", [5, 5, 0, 0, 0])]) :=
  claim_C8_preserve_keeps_original_moments (fun _ => []) 3 100
    ⟨"Fe2 O3", none, [5, 5, 0, 0, 0]⟩

/-- Claim C6: scheme FM+AFM with Max_antiferro 3 on a magnetic structure
(one failing the all-zero moment test of afm_structures) produces exactly
one FM-labeled entry followed by the antiferromagnetic entries labeled
AFM1, AFM2, ...: at most three of them, pairwise distinct, all distinct
from the ferromagnetic vector, and fewer than three only when the
enumerator used up its whole attempt budget in rejections. -/
theorem claim_C6_fm_afm_one_fm_up_to_three_afm (signs : Nat → List Int)
    (num_tries : Nat) (s : InputStructure)
    (h : s.ferro_magmom.toFinset ≠ {0}) :
    ∃ out, get_magnetic_structures_one signs "FM+AFM" 3 num_tries s = .ok out ∧
      out.magnetized = ("FM", ⟨s.formula, some s.ferro_magmom⟩) ::
        (random_antiferromagnetic signs 0 s.ferro_magmom [] 3 num_tries).enum.map
          (fun p => ("AFM" ++ toString (p.1 + 1), ⟨s.formula, some p.2⟩)) ∧
      (random_antiferromagnetic signs 0 s.ferro_magmom [] 3 num_tries).length ≤ 3 ∧
      (random_antiferromagnetic signs 0 s.ferro_magmom [] 3 num_tries).Pairwise
        (· ≠ ·) ∧
      (∀ e ∈ random_antiferromagnetic signs 0 s.ferro_magmom [] 3 num_tries,
        e ≠ s.ferro_magmom) ∧
      ((random_antiferromagnetic signs 0 s.ferro_magmom [] 3 num_tries).length < 3 →
        random_antiferromagnetic_rejections signs 0 s.ferro_magmom [] 3 num_tries =
          num_tries) := by
  have hout : get_magnetic_structures_one signs "FM+AFM" 3 num_tries s =
      .ok { magnetized := ("FM", ⟨s.formula, some s.ferro_magmom⟩) ::
              (random_antiferromagnetic signs 0 s.ferro_magmom [] 3
                num_tries).enum.map
                (fun p => ("AFM" ++ toString (p.1 + 1), ⟨s.formula, some p.2⟩)),
            unique := ("FM", s.ferro_magmom) ::
              (random_antiferromagnetic signs 0 s.ferro_magmom [] 3
                num_tries).enum.map
                (fun p => ("AFM" ++ toString (p.1 + 1), p.2)),
            prints := [] } := by
    simp [get_magnetic_structures_one, afm_structures, h]
  refine ⟨_, hout, rfl, ?_, ?_, ?_, ?_⟩
  · obtain ⟨new, h1, h2⟩ := random_antiferromagnetic_run_append signs
      s.ferro_magmom (3 + num_tries) 0 [] 3 num_tries
    unfold random_antiferromagnetic
    rw [h1]
    simpa using h2
  · exact (random_antiferromagnetic_run_invariant signs s.ferro_magmom _ 0 [] 3
      num_tries (by simp) (by simp)).2
  · exact (random_antiferromagnetic_run_invariant signs s.ferro_magmom _ 0 [] 3
      num_tries (by simp) (by simp)).1
  · intro hlt
    rcases random_antiferromagnetic_run_shortage signs s.ferro_magmom
        (3 + num_tries) 0 [] 3 num_tries (Nat.le_refl _) with hlen | hrej
    · unfold random_antiferromagnetic at hlt
      simp only [List.length_nil] at hlen
      omega
    · exact hrej

/-- Claim C6 witness at a one-site magnetic structure with attempt budget
one and a stream whose first draw flips the only sign. -/
theorem claim_C6_fm_afm_one_fm_up_to_three_afm_witness :
    (([1] : List Int).toFinset ≠ {0}) ∧
    (∃ out, get_magnetic_structures_one (fun _ => [-1]) "FM+AFM" 3 1
        ⟨"Fe", none, [1]⟩ = .ok out ∧
      out.magnetized = ("FM", ⟨"Fe", some [1]⟩) ::
        (random_antiferromagnetic (fun _ => [-1]) 0 [1] [] 3 1).enum.map
          (fun p => ("AFM" ++ toString (p.1 + 1), ⟨"Fe", some p.2⟩)) ∧
      (random_antiferromagnetic (fun _ => [-1]) 0 [1] [] 3 1).length ≤ 3 ∧
      (random_antiferromagnetic (fun _ => [-1]) 0 [1] [] 3 1).Pairwise (· ≠ ·) ∧
      (∀ e ∈ random_antiferromagnetic (fun _ => [-1]) 0 [1] [] 3 1, e ≠ [1]) ∧
      ((random_antiferromagnetic (fun _ => [-1]) 0 [1] [] 3 1).length < 3 →
        random_antiferromagnetic_rejections (fun _ => [-1]) 0 [1] [] 3 1 = 1)) :=
  ⟨by decide,
    claim_C6_fm_afm_one_fm_up_to_three_afm (fun _ => [-1]) 1 ⟨"Fe", none, [1]⟩
      (by decide)⟩

/-! ## CalculationType and WriteVaspFiles
(runfilegeneration.py lines 205-289 and 292-338)

The calculation stage only uses a structure through pymatgen operations:
its formula, its species list, make_supercell, the symmetry analysis
performed by get_unique_sites (SpacegroupAnalyzer followed by collecting
the representative index and multiplicity of every equivalence class), and
remove_sites.  These library operations are external to the repository, so
the embedding abstracts them as a record of operations over an arbitrary
structure type; get_unique_sites is the unique_sites field, returning the
site equivalence classes of a structure, each with the element symbol of
its representative, the representative index, and the class size.

WriteVaspFiles.write_vasp_poscar is modelled by the pair of the diagnostic
messages it prints and the file paths it writes, in order; directory
creation is idempotent in the source (FileExistsError is swallowed) and is
not modelled.  The guard type(write_structure) == Structure always holds
in the embedding because the payload type is the structure type itself.
The calc label read by the diagnostics is bulk for a bulk calculation and
otherwise the defect element followed by the word defect; an unrecognized
calculation type never reaches the writer because alter_structures already
exited the process. -/

structure USite where
  element : String
  index : Nat
  equivalent_sites : Nat
deriving DecidableEq

structure CalcDict where
  calc_type : String
  defect : String
deriving DecidableEq

structure StructOps (S : Type) where
  formula : S → String
  species : S → List String
  make_supercell : S → List Nat → S
  unique_sites : S → List USite
  remove_sites : S → List Nat → S

/-- CalculationType.structure_rescaler: pick the supercell multiplier from
the atom-count table and rescale; above 64 atoms the structure is returned
unchanged. -/
def structure_rescaler {S : Type} (ops : StructOps S) (s : S) : S :=
  if (ops.species s).length ≤ 2 then ops.make_supercell s [4, 4, 4]
  else if (ops.species s).length ≤ 4 then ops.make_supercell s [3, 3, 3]
  else if (ops.species s).length ≤ 7 then ops.make_supercell s [3, 3, 2]
  else if (ops.species s).length ≤ 10 then ops.make_supercell s [3, 2, 2]
  else if (ops.species s).length ≤ 16 then ops.make_supercell s [2, 2, 2]
  else if (ops.species s).length ≤ 32 then ops.make_supercell s [2, 2, 1]
  else if (ops.species s).length ≤ 64 then ops.make_supercell s [2, 1, 1]
  else s

/-- The inner loop of the defect branch of CalculationType.alter_structures:
walk the site equivalence classes, and for each class whose element matches
the configured defect element remove its representative site and record the
resulting structure under the key formed from its formula and the running
defect number; classes of other elements are skipped. -/
def defect_loop {S : Type} (ops : StructOps S) (defect_element : String)
    (rescaled : S) : List USite → Nat → List (String × S)
  | [], _n => []
  | site :: rest, defect_number =>
    if site.element = defect_element then
      let defect_structure := ops.remove_sites rescaled [site.index]
      (ops.formula defect_structure ++ " " ++ toString defect_number,
        defect_structure) ::
        defect_loop ops defect_element rescaled rest (defect_number + 1)
    else
      defect_loop ops defect_element rescaled rest defect_number

/-- CalculationType.alter_structures: bulk wraps every magnetic variant
unchanged under its formula key; defect rescales every variant and replaces
it by the mapping produced by the defect loop over its site equivalence
classes; any other calculation type prints a diagnostic and exits with
code 1. -/
def alter_structures {S : Type} (ops : StructOps S) (calculation_dict : CalcDict)
    (d : List (String × List (String × S))) :
    Except (Nat × String) (List (String × List (String × List (String × S)))) :=
  if calculation_dict.calc_type = "bulk" then
    .ok (d.map fun p => (p.1, p.2.map fun q => (q.1, [(ops.formula q.2, q.2)])))
  else if calculation_dict.calc_type = "defect" then
    .ok (d.map fun p => (p.1, p.2.map fun q =>
      (q.1,
        defect_loop ops calculation_dict.defect (structure_rescaler ops q.2)
          (ops.unique_sites (structure_rescaler ops q.2)) 1)))
  else
    .error (1, "Calculation Type " ++ calculation_dict.calc_type ++
      " not recognized; fatal error")

/-- WriteVaspFiles.write_vasp_poscar: returns the diagnostics printed and
the POSCAR paths written, in order.  A (structure, magnetism) pair whose
variant mapping is empty contributes one diagnostic and no writes; every
other pair contributes one POSCAR path per variant. -/
def write_vasp_poscar {S : Type} (calculation_dict : CalcDict)
    (d : List (String × List (String × List (String × S)))) :
    List String × List String :=
  let calc_name := if calculation_dict.calc_type = "bulk" then "bulk"
    else calculation_dict.defect ++ " defect"
  let top_level_dirname := calculation_dict.calc_type
  let results := (d.map (fun p =>
    let structure_dir_path := top_level_dirname ++ "/" ++ p.1.replace " " "_"
    p.2.map (fun q =>
      if q.2.isEmpty then
        ([p.1 ++ " not compatible with " ++ calc_name ++ " calculation"],
          ([] : List String))
      else
        (([] : List String),
          q.2.map (fun r =>
            structure_dir_path ++ "/" ++ q.1.replace " " "_" ++ "/" ++
              r.1.replace " " "_" ++ "/POSCAR"))))).flatten
  ((results.map Prod.fst).flatten, (results.map Prod.snd).flatten)

/-- A concrete StructOps instance over plain species lists, used to
evaluate the calculation-stage embedding on concrete inputs. -/
def listOps : StructOps (List String) :=
  { formula := fun s => String.intercalate " " s,
    species := fun s => s,
    make_supercell := fun s m => (List.replicate (m.foldl (· * ·) 1) s).flatten,
    unique_sites := fun s => s.enum.map (fun p => ⟨p.2, p.1, 1⟩),
    remove_sites := fun s idxs =>
      (s.enum.filter (fun p => !(idxs.contains p.1))).map Prod.snd }

/-! ## Claims about the Calculation Shaper and the File Emitter (C5, C7, C9) -/

/-- Claim C5: structure_rescaler applies the fixed supercell multiplier
determined by the atom count: up to 2 atoms [4,4,4], up to 4 [3,3,3], up to
7 [3,3,2], up to 10 [3,2,2], up to 16 [2,2,2], up to 32 [2,2,1], up to 64
[2,1,1], and above 64 atoms the structure is left unrescaled; in particular
a 5-site structure gets [3,3,2] and a 70-site structure is unchanged. -/
theorem claim_C5_rescaler_multiplier_table {S : Type} (ops : StructOps S) (s : S) :
    ((ops.species s).length ≤ 2 →
      structure_rescaler ops s = ops.make_supercell s [4, 4, 4]) ∧
    (2 < (ops.species s).length → (ops.species s).length ≤ 4 →
      structure_rescaler ops s = ops.make_supercell s [3, 3, 3]) ∧
    (4 < (ops.species s).length → (ops.species s).length ≤ 7 →
      structure_rescaler ops s = ops.make_supercell s [3, 3, 2]) ∧
    (7 < (ops.species s).length → (ops.species s).length ≤ 10 →
      structure_rescaler ops s = ops.make_supercell s [3, 2, 2]) ∧
    (10 < (ops.species s).length → (ops.species s).length ≤ 16 →
      structure_rescaler ops s = ops.make_supercell s [2, 2, 2]) ∧
    (16 < (ops.species s).length → (ops.species s).length ≤ 32 →
      structure_rescaler ops s = ops.make_supercell s [2, 2, 1]) ∧
    (32 < (ops.species s).length → (ops.species s).length ≤ 64 →
      structure_rescaler ops s = ops.make_supercell s [2, 1, 1]) ∧
    (64 < (ops.species s).length → structure_rescaler ops s = s) ∧
    ((ops.species s).length = 5 →
      structure_rescaler ops s = ops.make_supercell s [3, 3, 2]) ∧
    ((ops.species s).length = 70 → structure_rescaler ops s = s) := by
  refine ⟨?_, ?_, ?_, ?_, ?_, ?_, ?_, ?_, ?_, ?_⟩
  · intro h; unfold structure_rescaler; rw [if_pos h]
  · intro h1 h2; unfold structure_rescaler; split_ifs <;> first | rfl | omega
  · intro h1 h2; unfold structure_rescaler; split_ifs <;> first | rfl | omega
  · intro h1 h2; unfold structure_rescaler; split_ifs <;> first | rfl | omega
  · intro h1 h2; unfold structure_rescaler; split_ifs <;> first | rfl | omega
  · intro h1 h2; unfold structure_rescaler; split_ifs <;> first | rfl | omega
  · intro h1 h2; unfold structure_rescaler; split_ifs <;> first | rfl | omega
  · intro h; unfold structure_rescaler; split_ifs <;> first | rfl | omega
  · intro h; unfold structure_rescaler; split_ifs <;> first | rfl | omega
  · intro h; unfold structure_rescaler; split_ifs <;> first | rfl | omega

/-- Claim C5 witness: a 5-site structure gets the [3,3,2] multiplier and a
70-site structure is left unrescaled, over the concrete list instance. -/
theorem claim_C5_rescaler_multiplier_table_witness :
    structure_rescaler listOps ["Sr", "Ti", "O", "O", "O"] =
      listOps.make_supercell ["Sr", "Ti", "O", "O", "O"] [3, 3, 2] ∧
    structure_rescaler listOps (List.replicate 70 "O") = List.replicate 70 "O" :=
  ⟨(claim_C5_rescaler_multiplier_table listOps
      ["Sr", "Ti", "O", "O", "O"]).2.2.2.2.2.2.2.2.1 (by decide),
   (claim_C5_rescaler_multiplier_table listOps
      (List.replicate 70 "O")).2.2.2.2.2.2.2.2.2 (by decide)⟩

/-- Claim C7: an unrecognized Magnetization_Scheme value makes the
Magnetic Ordering Generator stop with exit code 1 and a diagnostic carrying
the offending value before any structure of the batch is processed, and an
unrecognized Calculation_Type value makes alter_structures stop with exit
code 1 and a diagnostic carrying the offending value. -/
theorem claim_C7_unknown_scheme_or_type_fatal {S : Type}
    (signs : Nat → Nat → List Int) (signs1 : Nat → List Int) (scheme : String)
    (max_antiferro num_tries : Nat) (s : InputStructure)
    (rest : List InputStructure) (n : Nat) (ops : StructOps S) (cd : CalcDict)
    (d : List (String × List (String × S)))
    (hs : scheme ∉ (["preserve", "FM", "AFM", "FM+AFM"] : List String))
    (hc : cd.calc_type ∉ (["bulk", "defect"] : List String)) :
    get_magnetic_structures_one signs1 scheme max_antiferro num_tries s =
      .error (1, "Magnetization Scheme " ++ scheme ++
        " not recognized; fatal error") ∧
    get_magnetic_structures signs scheme max_antiferro num_tries (s :: rest) n =
      .error (1, "Magnetization Scheme " ++ scheme ++
        " not recognized; fatal error") ∧
    alter_structures ops cd d =
      .error (1, "Calculation Type " ++ cd.calc_type ++
        " not recognized; fatal error") ∧
    (∃ p q, "Magnetization Scheme " ++ scheme ++ " not recognized; fatal error" =
      p ++ scheme ++ q) ∧
    (∃ p q, "Calculation Type " ++ cd.calc_type ++ " not recognized; fatal error" =
      p ++ cd.calc_type ++ q) := by
  simp only [List.mem_cons, List.mem_singleton, not_or, List.not_mem_nil,
    or_false] at hs hc
  obtain ⟨hs1, hs2, hs3, hs4⟩ := hs
  obtain ⟨hc1, hc2⟩ := hc
  have key : ∀ sg : Nat → List Int,
      get_magnetic_structures_one sg scheme max_antiferro num_tries s =
        .error (1, "Magnetization Scheme " ++ scheme ++
          " not recognized; fatal error") := by
    intro sg
    simp [get_magnetic_structures_one, hs1, hs2, hs3, hs4]
  refine ⟨key signs1, ?_, ?_, ?_, ?_⟩
  · simp [get_magnetic_structures, key (signs n)]
  · simp [alter_structures, hc1, hc2]
  · exact ⟨"Magnetization Scheme ", " not recognized; fatal error", rfl⟩
  · exact ⟨"Calculation Type ", " not recognized; fatal error", rfl⟩

/-- Claim C7 witness at the unrecognized scheme ferri and the unrecognized
calculation type surface. -/
theorem claim_C7_unknown_scheme_or_type_fatal_witness :
    ("ferri" ∉ (["preserve", "FM", "AFM", "FM+AFM"] : List String)) ∧
    (CalcDict.calc_type ⟨"surface", "O"⟩ ∉ (["bulk", "defect"] : List String)) ∧
    get_magnetic_structures_one (fun _ => []) "ferri" 3 100 ⟨"Fe", none, [1]⟩ =
      .error (1, "Magnetization Scheme " ++ "ferri" ++
        " not recognized; fatal error") ∧
    get_magnetic_structures (fun _ _ => []) "ferri" 3 100 [⟨"Fe", none, [1]⟩] 1 =
      .error (1, "Magnetization Scheme " ++ "ferri" ++
        " not recognized; fatal error") ∧
    alter_structures listOps ⟨"surface", "O"⟩ [("Fe 1", [("FM", ["Fe"])])] =
      .error (1, "Calculation Type " ++ CalcDict.calc_type ⟨"surface", "O"⟩ ++
        " not recognized; fatal error") := by
  have h := claim_C7_unknown_scheme_or_type_fatal (fun _ _ => []) (fun _ => [])
    "ferri" 3 100 ⟨"Fe", none, [1]⟩ [] 1 listOps ⟨"surface", "O"⟩
    [("Fe 1", [("FM", ["Fe"])])] (by decide) (by decide)
  exact ⟨by decide, by decide, h.1, h.2.1, h.2.2.1⟩

theorem defect_loop_no_match {S : Type} (ops : StructOps S)
    (defect_element : String) (rescaled : S) :
    ∀ sites n, (∀ site ∈ sites, site.element ≠ defect_element) →
      defect_loop ops defect_element rescaled sites n = [] := by
  intro sites
  induction sites with
  | nil => intro n _; rfl
  | cons site rest ih =>
    intro n h
    simp only [defect_loop]
    rw [if_neg (h site (by simp))]
    exact ih n (fun x hx => h x (by simp [hx]))

/-- Claim C9: a defect calculation whose rescaled structure has no site
equivalence class matching the configured defect element produces an empty
variant mapping for that (structure, ordering) pair, and the File Emitter
handles an empty pair by printing the incompatibility diagnostic for it,
writing nothing for it, and leaving the diagnostics and writes of every
other pair of the batch unchanged; the writer is a total function, so the
batch never aborts. -/
theorem claim_C9_empty_variant_mapping_skipped {S : Type} (ops : StructOps S)
    (cd : CalcDict) (base : S) (sk mk : String)
    (d1 d2 : List (String × List (String × List (String × S))))
    (hd : cd.calc_type = "defect")
    (hno : ∀ site ∈ ops.unique_sites (structure_rescaler ops base),
      site.element ≠ cd.defect) :
    alter_structures ops cd [(sk, [(mk, base)])] =
      .ok [(sk, [(mk, ([] : List (String × S)))])] ∧
    (write_vasp_poscar cd (d1 ++ (sk, [(mk, ([] : List (String × S)))]) :: d2)).1 =
      (write_vasp_poscar cd d1).1 ++
        (sk ++ " not compatible with " ++
          (if cd.calc_type = "bulk" then "bulk" else cd.defect ++ " defect") ++
          " calculation") :: (write_vasp_poscar cd d2).1 ∧
    (write_vasp_poscar cd (d1 ++ (sk, [(mk, ([] : List (String × S)))]) :: d2)).2 =
      (write_vasp_poscar cd d1).2 ++ (write_vasp_poscar cd d2).2 := by
  refine ⟨?_, ?_, ?_⟩
  · simp [alter_structures, hd, defect_loop_no_match ops cd.defect
      (structure_rescaler ops base) (ops.unique_sites (structure_rescaler ops base))
      1 hno]
  · simp [write_vasp_poscar]
  · simp [write_vasp_poscar]

/-- Claim C9 witness: an all-oxygen 70-site structure has no sodium site
class, so its defect mapping is empty; the writer prints the diagnostic for
it and still writes the POSCAR of the following structure of the batch. -/
theorem claim_C9_empty_variant_mapping_skipped_witness :
    (∀ site ∈ listOps.unique_sites
        (structure_rescaler listOps (List.replicate 70 "O")),
      site.element ≠ CalcDict.defect ⟨"defect", "Na"⟩) ∧
    (alter_structures listOps ⟨"defect", "Na"⟩
        [("O70 1", [("FM", List.replicate 70 "O")])] =
      .ok [("O70 1", [("FM", ([] : List (String × List String)))])] ∧
    (write_vasp_poscar ⟨"defect", "Na"⟩
        (([] : List (String × List (String × List (String × List String)))) ++
          ("O70 1", [("FM", ([] : List (String × List String)))]) ::
          [("K 2", [("FM", [("K", ["K"])])])])).1 =
      (write_vasp_poscar (⟨"defect", "Na"⟩ : CalcDict)
        ([] : List (String × List (String × List (String × List String))))).1 ++
        ("O70 1" ++ " not compatible with " ++
          (if CalcDict.calc_type ⟨"defect", "Na"⟩ = "bulk" then "bulk"
            else CalcDict.defect ⟨"defect", "Na"⟩ ++ " defect") ++
          " calculation") ::
        (write_vasp_poscar (⟨"defect", "Na"⟩ : CalcDict)
          [("K 2", [("FM", [("K", ["K"])])])]).1 ∧
    (write_vasp_poscar ⟨"defect", "Na"⟩
        (([] : List (String × List (String × List (String × List String)))) ++
          ("O70 1", [("FM", ([] : List (String × List String)))]) ::
          [("K 2", [("FM", [("K", ["K"])])])])).2 =
      (write_vasp_poscar (⟨"defect", "Na"⟩ : CalcDict)
        ([] : List (String × List (String × List (String × List String))))).2 ++
        (write_vasp_poscar (⟨"defect", "Na"⟩ : CalcDict)
          [("K 2", [("FM", [("K", ["K"])])])]).2) :=
  ⟨by decide,
    claim_C9_empty_variant_mapping_skipped listOps ⟨"defect", "Na"⟩
      (List.replicate 70 "O") "O70 1" "FM" []
      [("K 2", [("FM", [("K", ["K"])])])] rfl (by decide)⟩

end Runfile
